import Mathlib

/-!
Verification development for `weatherbulletin.py` (svfm-weatherai).

The Python source is shallowly embedded below:
* raw observations (`timeSeries` entries) become the structure `Obs`
  (temperatures as rationals, Python floats being out of scope for the
  claims at hand; `round` is embedded as Python's banker's rounding);
* the aggregation methods of `MetOfficeWeatherForecast` become pure
  functions returning `Option` for dictionary lookups (a Python `dict`
  is denoted by its lookup function; grouping preserves input order, so
  each bucket is a `List.filter` of the input);
* `metoffice_weather_codes_to_str` mutates its argument list in place
  (`codes.remove`), so it is embedded with explicit state passing: it
  returns the rendered string together with the pruned list, and raises
  (`Except.error`) where Python raises (`UnboundLocalError` when `part`
  is neither `"day"` nor `"night"` and the loop body runs);
* the bulletin composition `bulletin_metoffice` becomes `compose`, a
  function of the forecast index, the `today`/`tomorrow` date strings
  and the wall-clock hour; dictionary lookups that Python would fail
  with `KeyError` become `Except.error`, and the in-place pruning of
  `weather_code` lists is made visible by returning the updated index.
-/

namespace Weather

/-- One entry of the Met Office `timeSeries` (the fields read by the
aggregator). `time` is the ISO-8601 timestamp string. -/
structure Obs where
  time : String
  maxScreenAirTemp : ℚ
  minScreenAirTemp : ℚ
  significantWeatherCode : Int
  uvIndex : Int
  probOfRain : Int
deriving DecidableEq, Repr

/-- Python `round` on a rational: round half to even (banker's rounding),
as Python 3's builtin `round` does. `q.num.ediv q.den` is `⌊q⌋`
(Euclidean division by the positive denominator), and comparing the
fractional part with 1/2 is done as comparing twice the remainder with
the denominator — integer arithmetic throughout, so that the definition
evaluates by kernel reduction. -/
def pyRound (q : ℚ) : Int :=
  let n := q.num
  let d : Int := (q.den : Int)
  let f : Int := n.ediv d
  let r2 : Int := 2 * (n - f * d)
  if r2 < d then f
  else if d < r2 then f + 1
  else if f % 2 = 0 then f else f + 1

/-- Python `max(list)`; the `[]` case never occurs at call sites
(Python would raise `ValueError` there). -/
def pyMax {α : Type} [LinearOrder α] [Inhabited α] : List α → α
  | [] => default
  | x :: xs => xs.foldl max x

/-- Python `min(list)`; the `[]` case never occurs at call sites. -/
def pyMin {α : Type} [LinearOrder α] [Inhabited α] : List α → α
  | [] => default
  | x :: xs => xs.foldl min x

/-- Python `int(s)` restricted to non-empty all-digit strings (the only
shape arising from well-formed timestamps); other inputs give `none`
where Python would raise `ValueError`. -/
def parseNat? (l : List Char) : Option Nat :=
  if l.isEmpty then none
  else if l.all (fun c => c.isDigit) then
    some (l.foldl (fun n c => n * 10 + (c.toNat - 48)) 0)
  else none

/-- Python `s.split(c)` on a character separator. -/
def splitOnChar (c : Char) : List Char → List (List Char)
  | [] => [[]]
  | x :: xs =>
    match splitOnChar c xs with
    | [] => [[]]
    | g :: gs => if x = c then [] :: g :: gs else (x :: g) :: gs

/-- `entry["time"][:10]`: the date portion of a timestamp. -/
def dateOf (t : String) : String := ⟨t.data.take 10⟩

/-- `int(the_time.split("T")[1].split(":")[0])` from
`_determine_day_part` (source lines 49-50); malformed timestamps, on
which Python would raise, default to 0. -/
def determine_hour (t : String) : Nat :=
  let afterT := (splitOnChar 'T' t.data).getD 1 []
  let hh := (splitOnChar ':' afterT).headD []
  (parseNat? hh).getD 0

/-- `_determine_day_part` (source lines 49-58): morning = hour in
[6,12), afternoon in [12,18), evening in [18,24), overnight otherwise.
This is the classifier actually used by `get_day_periods_weather`. -/
def determine_day_part (t : String) : String :=
  let hour := determine_hour t
  if 6 ≤ hour ∧ hour < 12 then "morning"
  else if 12 ≤ hour ∧ hour < 18 then "afternoon"
  else if 18 ≤ hour ∧ hour < 24 then "evening"
  else "overnight"

/-- `int(entry["time"][11:13])` (source line 65). -/
def slice_hour (t : String) : Nat :=
  (parseNat? ((t.data.drop 11).take 2)).getD 0

/-- The day-part classifier of `_get_day_periods` (source lines 65-73),
the spec's Scheme A: morning = hour in [7,12), afternoon in [12,17),
evening in [17,24), overnight otherwise. `_get_day_periods` is defined
in the source but never called. -/
def scheme_A_day_part (t : String) : String :=
  let hour := slice_hour t
  if 7 ≤ hour ∧ hour < 12 then "morning"
  else if 12 ≤ hour ∧ hour < 17 then "afternoon"
  else if 17 ≤ hour ∧ hour < 24 then "evening"
  else "overnight"

/-- `_get_daily_data` groups entries by `entry["time"][:10]` preserving
input order; `daily_data[date]` is therefore the sublist of entries
whose timestamp starts with `date`. -/
def daily_entries (l : List Obs) (date : String) : List Obs :=
  l.filter (fun e => dateOf e.time = date)

/-- Derived, immutable per-(date, day-part) statistics (the dict built
by `_get_weather_for_day`). -/
structure PeriodSummary where
  max_temp : Int
  min_temp : Int
  weather_code : List Int
  uv_index : Int
  prob_of_rain : Int
deriving DecidableEq, Repr

/-- `_get_weather_for_day` (source lines 153-168). Python's
`sorted(set(...))` — the ascending list of distinct codes — is embedded
as `insertionSort` of `dedup`. -/
def get_weather_for_day (entries : List Obs) : PeriodSummary :=
  { max_temp := pyRound (pyMax (entries.map (fun e => e.maxScreenAirTemp)))
    min_temp := pyRound (pyMin (entries.map (fun e => e.minScreenAirTemp)))
    uv_index := pyMax (entries.map (fun e => e.uvIndex))
    prob_of_rain := pyMax (entries.map (fun e => e.probOfRain))
    weather_code :=
      ((entries.map (fun e => e.significantWeatherCode)).dedup).insertionSort
        (fun a b => a ≤ b) }

/-- The entries of one (date, day-part) bucket of
`get_day_periods_weather`: the date's entries classified to `part` by
`_determine_day_part`, in input order. -/
def period_entries (l : List Obs) (date part : String) : List Obs :=
  (daily_entries l date).filter (fun e => determine_day_part e.time = part)

/-- `get_day_periods_weather` (source lines 132-151), denoted by its
lookup function: `forecast[date][part]` exists iff some entry of that
date is classified to `part` by `_determine_day_part`, and then holds
the statistics of those entries (in input order). -/
def get_day_periods_weather (l : List Obs) (date part : String) :
    Option PeriodSummary :=
  let entries := period_entries l date part
  if entries.isEmpty then none else some (get_weather_for_day entries)

/-- Per-date high/low pair (the dict built by `get_highs_lows`). -/
structure DailyHighLow where
  high : Int
  low : Int
deriving DecidableEq, Repr

/-- `get_highs_lows` (source lines 121-130) with `_calculate_high_low`
(lines 46-47): both values come from the `maxScreenAirTemp` field. -/
def get_highs_lows (l : List Obs) (date : String) : Option DailyHighLow :=
  let entries := daily_entries l date
  if entries.isEmpty then none
  else
    let temps := entries.map (fun e => e.maxScreenAirTemp)
    some { high := pyRound (pyMax temps), low := pyRound (pyMin temps) }

/-- The per-code phrase table `values` of
`metoffice_weather_codes_to_str` (source lines 276-307); `values.get`
with fallback `"Some weather"` is `phrase_of_code` (code 4 is absent
from the table). -/
def phrase_of_code (c : Int) : String :=
  if c = 0 then "Clear"
  else if c = 1 then "Clear and sunny"
  else if c = 2 then "Partially cloudy"
  else if c = 3 then "Sunny with a few clouds"
  else if c = 5 then "Misty"
  else if c = 6 then "Foggy"
  else if c = 7 then "Cloudy skies"
  else if c = 8 then "Overcast"
  else if c = 9 then "Light rain showers"
  else if c = 10 then "Light rain showers"
  else if c = 11 then "Drizzle"
  else if c = 12 then "Light rain"
  else if c = 13 then "Heavy rain showers"
  else if c = 14 then "Heavy rain showers"
  else if c = 15 then "Heavy rain"
  else if c = 16 then "Sleet showers"
  else if c = 17 then "Sleet showers"
  else if c = 18 then "Sleet"
  else if c = 19 then "Hail showers"
  else if c = 20 then "Hail showers"
  else if c = 21 then "Hail"
  else if c = 22 then "Light snow showers"
  else if c = 23 then "Light snow showers"
  else if c = 24 then "Light snow"
  else if c = 25 then "Heavy snow showers"
  else if c = 26 then "Heavy snow showers"
  else if c = 27 then "Heavy snow"
  else if c = 28 then "Thunder showers"
  else if c = 29 then "Thunder showers"
  else if c = 30 then "Thunder"
  else "Some weather"

/-- `day_skip_codes` (source line 310); a Python set used only for
membership, so embedded as a list. -/
def day_skip_codes : List Int := [1, 2, 3, 4, 5, 6, 7, 8, 11, 12, 15, 18, 21, 24, 27, 30]

/-- `night_skip_codes` (source line 311). -/
def night_skip_codes : List Int := [0, 9, 10, 13, 14, 16, 17, 19, 20, 22, 23, 25, 26, 28, 29]

/-- One step of the deduplication loop `for code in codes[:]` (source
lines 319-324): on seeing a 7 (resp. 2) in the iterated copy, remove
the first occurrence of 7 (resp. 2) from the current list when 3 is
present. `List.erase` matches Python's `list.remove` (first
occurrence); the element is always present when removed here, so
`remove`'s `ValueError` cannot occur. This is the loop body's first
statement (`if code == 7 and 3 in codes: codes.remove(7)`). -/
def prune7 (acc : List Int) (code : Int) : List Int :=
  if code = 7 ∧ 3 ∈ acc then acc.erase 7 else acc

/-- Second statement of the loop body: see `pruneStep`. -/
def prune2 (acc : List Int) (code : Int) : List Int :=
  if code = 2 ∧ 3 ∈ acc then acc.erase 2 else acc

/-- Both statements of the loop body in source order. -/
def pruneStep (acc : List Int) (code : Int) : List Int :=
  prune2 (prune7 acc code) code

/-- The whole deduplication loop: fold `pruneStep` over the copy
`codes[:]` starting from the (mutated-in-place) list itself. -/
def prune (codes : List Int) : List Int := codes.foldl pruneStep codes

/-- The rendering loop (source lines 326-334). `skip` is
`codes_to_skip`, which Python leaves unassigned when `part` is neither
`"night"` nor `"day"`; reading it then raises `UnboundLocalError`,
embedded as `Except.error`. `n` is `len(codes)` (the pruned list's
length, constant during the loop), `i` the count of rendered codes. -/
def renderLoop (skip : Option (List Int)) (n : Nat) :
    List Int → Nat → String → Except String String
  | [], _, acc => Except.ok acc
  | c :: rest, i, acc =>
    match skip with
    | none => Except.error "UnboundLocalError"
    | some sk =>
      if c ∈ sk then renderLoop skip n rest i acc
      else
        let i1 := i + 1
        let acc1 := acc ++ (if i1 = 2 ∧ 2 ≤ n then ", with " else "")
        let acc2 := acc1 ++ (if i1 = 3 ∧ 3 ≤ n then " and " else "")
        renderLoop skip n rest i1 (acc2 ++ phrase_of_code c)

/-- `metoffice_weather_codes_to_str` (source lines 274-335). The
Python function returns the string and mutates `codes` in place; the
embedding returns the string together with the pruned list (the final
state of the caller's list object). -/
def metoffice_weather_codes_to_str (codes : List Int) (part : String) :
    Except String (String × List Int) :=
  let codes_to_skip : Option (List Int) :=
    if part = "night" then some day_skip_codes
    else if part = "day" then some night_skip_codes
    else none
  let pruned := prune codes
  match renderLoop codes_to_skip pruned.length pruned 0 "" with
  | Except.error e => Except.error e
  | Except.ok w => Except.ok (w, pruned)

/-- The type of `forecast = get_day_periods_weather()` as a concrete
dictionary value: date → day-part → `PeriodSummary`, insertion order
preserved. -/
abbrev Forecast : Type := List (String × List (String × PeriodSummary))

/-- Python `d[k]` read on a dict, as an association-list lookup. -/
def alookup {α : Type} (k : String) : List (String × α) → Option α
  | [] => none
  | p :: rest => if p.1 = k then some p.2 else alookup k rest

/-- Python `d[k] = v` on a dict: replace in place if the key exists,
append otherwise. -/
def aset {α : Type} (k : String) (v : α) : List (String × α) → List (String × α)
  | [] => [(k, v)]
  | p :: rest => if p.1 = k then (k, v) :: rest else p :: aset k v rest

/-- One composer access
`metoffice_weather_codes_to_str(forecast[date][part]["weather_code"], dayNight)`
(e.g. source lines 197-199). `forecast` is a `defaultdict(dict)`: a
missing `date` yields an empty inner dict, on which the `part` lookup
raises `KeyError` (the insertion of that empty dict is unobservable
because the exception aborts the run, so it is not recorded); a missing
`part` raises `KeyError`; otherwise the period's `weather_code` list is
rendered and its pruned value written back (the in-place mutation by
`codes.remove`). -/
def renderPart (fc : Forecast) (date part dayNight : String) :
    Except String (String × Forecast) :=
  match alookup date fc with
  | none => Except.error "KeyError"
  | some inner =>
    match alookup part inner with
    | none => Except.error "KeyError"
    | some ps =>
      match metoffice_weather_codes_to_str ps.weather_code dayNight with
      | Except.error e => Except.error e
      | Except.ok (s, pruned) =>
        Except.ok (s, aset date (aset part { ps with weather_code := pruned } inner) fc)

/-- The aggregator's output consumed by `bulletin_metoffice`:
`forecast` and `temps` (source lines 186-187). -/
structure ForecastIndex where
  forecast : Forecast
  temps : List (String × DailyHighLow)
deriving DecidableEq

/-- Python's `repr` of the dict `{"high": h, "low": l}` as interpolated
by the morning branch's `f"...{peak_temp}..."` (source line 211, where
`peak_temp = temps[today]` is the whole dict, not a number). -/
def singleQuote : String := String.mk [Char.ofNat 39]

/-- See `singleQuote`; renders e.g. the dict with high 18 and low 12 the
way Python would interpolate it. -/
def dictRepr (t : DailyHighLow) : String :=
  "\x7b" ++ singleQuote ++ "high" ++ singleQuote ++ ": " ++ toString t.high ++
    ", " ++ singleQuote ++ "low" ++ singleQuote ++ ": " ++ toString t.low ++ "\x7d"

/-- Morning branch of `bulletin_metoffice` (source lines 194-211),
selected for hour in [5,11). -/
def morningBranch (idx : ForecastIndex) (today : String) :
    Except String (String × ForecastIndex) :=
  match renderPart idx.forecast today "morning" "day" with
  | Except.error e => Except.error e
  | Except.ok (mw, fc1) =>
    match renderPart fc1 today "afternoon" "day" with
    | Except.error e => Except.error e
    | Except.ok (aw, fc2) =>
      match alookup today idx.temps with
      | none => Except.error "KeyError"
      | some peak =>
        let b := mw ++ " this morning, " ++
          (if mw = aw then
            "staying much the same throughout the afternoon in North East Somerset, "
          else aw ++ " across North East Somerset this afternoon ") ++
          "with temperatures reaching " ++ dictRepr peak ++ " degrees."
        Except.ok (b, { idx with forecast := fc2 })

/-- Afternoon branch of `bulletin_metoffice` (source lines 212-229),
selected for hour in [11,17). -/
def afternoonBranch (idx : ForecastIndex) (today : String) :
    Except String (String × ForecastIndex) :=
  match renderPart idx.forecast today "afternoon" "day" with
  | Except.error e => Except.error e
  | Except.ok (aw, fc1) =>
    match renderPart fc1 today "evening" "day" with
    | Except.error e => Except.error e
    | Except.ok (ew, fc2) =>
      match alookup today idx.temps with
      | none => Except.error "KeyError"
      | some peak =>
        let b := aw ++ " this afternoon" ++
          (if aw = ew then ", continuing into the evening"
           else ", " ++ ew ++ " later into the evening") ++
          ". Highs across North East Somerset of " ++ toString peak.high ++ " degrees."
        Except.ok (b, { idx with forecast := fc2 })

/-- Evening branch of `bulletin_metoffice` (source lines 230-247),
selected for hour in [17,24). -/
def eveningBranch (idx : ForecastIndex) (today tomorrow : String) :
    Except String (String × ForecastIndex) :=
  match renderPart idx.forecast today "evening" "day" with
  | Except.error e => Except.error e
  | Except.ok (ew, fc1) =>
    match renderPart fc1 tomorrow "overnight" "night" with
    | Except.error e => Except.error e
    | Except.ok (ow, fc2) =>
      match renderPart fc2 tomorrow "morning" "day" with
      | Except.error e => Except.error e
      | Except.ok (tw, fc3) =>
        match alookup tomorrow idx.temps with
        | none => Except.error "KeyError"
        | some t =>
          let b := ew ++ " this evening. " ++
            ow ++ " overnight with lows of " ++ toString t.low ++ " degrees. " ++
            "Tomorrow we will expect " ++ tw ++ " with highs of " ++
            toString t.high ++ "."
          Except.ok (b, { idx with forecast := fc3 })

/-- Overnight branch of `bulletin_metoffice` (source lines 248-269),
selected for the remaining hours. -/
def overnightBranch (idx : ForecastIndex) (tomorrow : String) :
    Except String (String × ForecastIndex) :=
  match renderPart idx.forecast tomorrow "overnight" "night" with
  | Except.error e => Except.error e
  | Except.ok (ow, fc1) =>
    match renderPart fc1 tomorrow "morning" "day" with
    | Except.error e => Except.error e
    | Except.ok (tmw, fc2) =>
      match renderPart fc2 tomorrow "afternoon" "day" with
      | Except.error e => Except.error e
      | Except.ok (taw, fc3) =>
        match alookup tomorrow idx.temps with
        | none => Except.error "KeyError"
        | some t =>
          let b := ow ++ " overnight with lows of " ++ toString t.low ++ " degrees. " ++
            (if tmw = taw then
              "Tomorrow we are expecting " ++ tmw ++
                ", with temperatures reaching highs of " ++ toString t.high ++ " degrees."
            else
              "Tomorrow morning will start with " ++ tmw ++ ", " ++ taw ++
                " later on, highs of " ++ toString t.high ++ ".")
          Except.ok (b, { idx with forecast := fc3 })

/-- `bulletin_metoffice` (source lines 171-271) after fetching and
aggregating: the template selection over `now.hour` with the four
branches. `today` and `tomorrow` are the two date strings Python
derives from the wall clock; they are parameters here. -/
def compose (idx : ForecastIndex) (today tomorrow : String) (hour : Nat) :
    Except String (String × ForecastIndex) :=
  if 5 ≤ hour ∧ hour < 11 then morningBranch idx today
  else if 11 ≤ hour ∧ hour < 17 then afternoonBranch idx today
  else if 17 ≤ hour ∧ hour < 24 then eveningBranch idx today tomorrow
  else overnightBranch idx tomorrow

/-! ### Helper lemmas about `pyMax`, `pyMin` (Python `max`/`min`) -/

section MaxMin

variable {α : Type} [LinearOrder α]

lemma left_le_foldl_max (xs : List α) (x : α) : x ≤ xs.foldl max x := by
  induction xs generalizing x with
  | nil => simp
  | cons y ys ih =>
    simp only [List.foldl_cons]
    exact le_trans (le_max_left x y) (ih (max x y))

lemma mem_le_foldl_max (xs : List α) (x a : α) (h : a ∈ xs) : a ≤ xs.foldl max x := by
  induction xs generalizing x with
  | nil => cases h
  | cons y ys ih =>
    simp only [List.foldl_cons]
    rcases List.mem_cons.mp h with rfl | h'
    · exact le_trans (le_max_right x a) (left_le_foldl_max ys (max x a))
    · exact ih _ h'

lemma foldl_max_mem (xs : List α) (x : α) : xs.foldl max x ∈ x :: xs := by
  induction xs generalizing x with
  | nil => simp
  | cons y ys ih =>
    simp only [List.foldl_cons]
    rcases List.mem_cons.mp (ih (max x y)) with h1 | h1
    · rcases max_choice x y with hc | hc
      · rw [h1, hc]; exact List.mem_cons_self _ _
      · rw [h1, hc]; exact List.mem_cons_of_mem _ (List.mem_cons_self _ _)
    · exact List.mem_cons_of_mem _ (List.mem_cons_of_mem _ h1)

lemma pyMax_mem [Inhabited α] {l : List α} (h : l ≠ []) : pyMax l ∈ l := by
  cases l with
  | nil => exact absurd rfl h
  | cons x xs => exact foldl_max_mem xs x

lemma le_pyMax [Inhabited α] {l : List α} {a : α} (h : a ∈ l) : a ≤ pyMax l := by
  cases l with
  | nil => cases h
  | cons x xs =>
    rcases List.mem_cons.mp h with rfl | h'
    · exact left_le_foldl_max xs a
    · exact mem_le_foldl_max xs x a h'

lemma foldl_min_le_left (xs : List α) (x : α) : xs.foldl min x ≤ x := by
  induction xs generalizing x with
  | nil => simp
  | cons y ys ih =>
    simp only [List.foldl_cons]
    exact le_trans (ih (min x y)) (min_le_left x y)

lemma foldl_min_le_mem (xs : List α) (x a : α) (h : a ∈ xs) : xs.foldl min x ≤ a := by
  induction xs generalizing x with
  | nil => cases h
  | cons y ys ih =>
    simp only [List.foldl_cons]
    rcases List.mem_cons.mp h with rfl | h'
    · exact le_trans (foldl_min_le_left ys (min x a)) (min_le_right x a)
    · exact ih _ h'

lemma foldl_min_mem (xs : List α) (x : α) : xs.foldl min x ∈ x :: xs := by
  induction xs generalizing x with
  | nil => simp
  | cons y ys ih =>
    simp only [List.foldl_cons]
    rcases List.mem_cons.mp (ih (min x y)) with h1 | h1
    · rcases min_choice x y with hc | hc
      · rw [h1, hc]; exact List.mem_cons_self _ _
      · rw [h1, hc]; exact List.mem_cons_of_mem _ (List.mem_cons_self _ _)
    · exact List.mem_cons_of_mem _ (List.mem_cons_of_mem _ h1)

lemma pyMin_mem [Inhabited α] {l : List α} (h : l ≠ []) : pyMin l ∈ l := by
  cases l with
  | nil => exact absurd rfl h
  | cons x xs => exact foldl_min_mem xs x

lemma pyMin_le [Inhabited α] {l : List α} {a : α} (h : a ∈ l) : pyMin l ≤ a := by
  cases l with
  | nil => cases h
  | cons x xs =>
    rcases List.mem_cons.mp h with rfl | h'
    · exact foldl_min_le_left xs a
    · exact foldl_min_le_mem xs x a h'

lemma pyMax_perm [Inhabited α] {l l' : List α} (h : l.Perm l') : pyMax l = pyMax l' := by
  by_cases hn : l = []
  · subst hn
    rw [(List.Perm.eq_nil h.symm : l' = [])]
  · have hn' : l' ≠ [] := fun e => hn (List.Perm.eq_nil (e ▸ h))
    exact le_antisymm (le_pyMax (h.mem_iff.mp (pyMax_mem hn)))
      (le_pyMax (h.mem_iff.mpr (pyMax_mem hn')))

lemma pyMin_perm [Inhabited α] {l l' : List α} (h : l.Perm l') : pyMin l = pyMin l' := by
  by_cases hn : l = []
  · subst hn
    rw [(List.Perm.eq_nil h.symm : l' = [])]
  · have hn' : l' ≠ [] := fun e => hn (List.Perm.eq_nil (e ▸ h))
    exact le_antisymm (pyMin_le (h.mem_iff.mpr (pyMin_mem hn')))
      (pyMin_le (h.mem_iff.mp (pyMin_mem hn)))

end MaxMin

/-! ### Helper lemmas about the deduplication loop `prune` -/

lemma three_mem_prune7 {acc : List Int} (c : Int) (h : 3 ∈ acc) : 3 ∈ prune7 acc c := by
  unfold prune7
  split
  · exact (List.mem_erase_of_ne (by decide)).mpr h
  · exact h

lemma three_mem_prune2 {acc : List Int} (c : Int) (h : 3 ∈ acc) : 3 ∈ prune2 acc c := by
  unfold prune2
  split
  · exact (List.mem_erase_of_ne (by decide)).mpr h
  · exact h

lemma three_mem_pruneStep {acc : List Int} (c : Int) (h : 3 ∈ acc) : 3 ∈ pruneStep acc c :=
  three_mem_prune2 c (three_mem_prune7 c h)

/-- Removing an element the filter would drop anyway does not change the
filter. -/
lemma filter_erase_false {p : Int → Bool} {a : Int} (hp : p a = false) (l : List Int) :
    (l.erase a).filter p = l.filter p := by
  induction l with
  | nil => rfl
  | cons x xs ih =>
    by_cases hx : x = a
    · subst hx
      rw [List.erase_cons_head]
      simp [List.filter_cons, hp]
    · rw [List.erase_cons_tail (by simp [hx])]
      simp only [List.filter_cons, ih]

/-- The deduplication fold computes the filter dropping 7s and 2s, as
long as 3 stays present and the iterated copy has at least as many 7s
and 2s as the current list. -/
lemma foldl_pruneStep_eq_filter :
    ∀ L acc : List Int, 3 ∈ acc →
      acc.count 7 ≤ L.count 7 → acc.count 2 ≤ L.count 2 →
      L.foldl pruneStep acc = acc.filter (fun c => !(c == 7 || c == 2)) := by
  intro L
  induction L with
  | nil =>
    intro acc h3 h7 h2
    simp only [List.count_nil, Nat.le_zero] at h7 h2
    have h7' : (7 : Int) ∉ acc := by
      intro hm
      exact absurd h7 (Nat.pos_iff_ne_zero.mp (List.count_pos_iff.mpr hm))
    have h2' : (2 : Int) ∉ acc := by
      intro hm
      exact absurd h2 (Nat.pos_iff_ne_zero.mp (List.count_pos_iff.mpr hm))
    simp only [List.foldl_nil]
    refine (List.filter_eq_self.mpr ?_).symm
    intro a ha
    simp only [Bool.not_eq_true', Bool.or_eq_false_iff, beq_eq_false_iff_ne, ne_eq]
    exact ⟨fun e => h7' (e ▸ ha), fun e => h2' (e ▸ ha)⟩
  | cons c L ih =>
    intro acc h3 h7 h2
    simp only [List.foldl_cons]
    by_cases hc7 : c = 7
    · subst hc7
      have hstep : pruneStep acc 7 = acc.erase 7 := by
        have ha : prune7 acc 7 = acc.erase 7 := by
          unfold prune7
          rw [if_pos ⟨rfl, h3⟩]
        have hb : prune2 (acc.erase 7) 7 = acc.erase 7 := by
          unfold prune2
          rw [if_neg (fun hx => absurd hx.1 (by decide))]
        unfold pruneStep
        rw [ha, hb]
      rw [hstep,
        ih (acc.erase 7) ((List.mem_erase_of_ne (by decide)).mpr h3)
          (by
            rw [List.count_erase_self]
            rw [List.count_cons_self] at h7
            omega)
          (by
            rw [List.count_erase_of_ne (by decide)]
            rwa [List.count_cons_of_ne (by decide)] at h2),
        filter_erase_false (by decide)]
    · by_cases hc2 : c = 2
      · subst hc2
        have hstep : pruneStep acc 2 = acc.erase 2 := by
          have ha : prune7 acc 2 = acc := by
            unfold prune7
            rw [if_neg (fun hx => absurd hx.1 (by decide))]
          have hb : prune2 acc 2 = acc.erase 2 := by
            unfold prune2
            rw [if_pos ⟨rfl, h3⟩]
          unfold pruneStep
          rw [ha, hb]
        rw [hstep,
          ih (acc.erase 2) ((List.mem_erase_of_ne (by decide)).mpr h3)
            (by
              rw [List.count_erase_of_ne (by decide)]
              rwa [List.count_cons_of_ne (by decide)] at h7)
            (by
              rw [List.count_erase_self]
              rw [List.count_cons_self] at h2
              omega),
          filter_erase_false (by decide)]
      · have hstep : pruneStep acc c = acc := by
          have ha : prune7 acc c = acc := by
            unfold prune7
            rw [if_neg (fun hx => absurd hx.1 hc7)]
          have hb : prune2 acc c = acc := by
            unfold prune2
            rw [if_neg (fun hx => absurd hx.1 hc2)]
          unfold pruneStep
          rw [ha, hb]
        rw [hstep]
        exact ih acc h3
          (by rwa [List.count_cons_of_ne (Ne.symm hc7)] at h7)
          (by rwa [List.count_cons_of_ne (Ne.symm hc2)] at h2)

/-- When 3 is among the codes, the deduplication loop removes exactly
the 7s and 2s (and nothing else, preserving order). -/
lemma prune_eq_filter (codes : List Int) (h3 : 3 ∈ codes) :
    prune codes = codes.filter (fun c => !(c == 7 || c == 2)) :=
  foldl_pruneStep_eq_filter codes codes h3 le_rfl le_rfl

/-! ### Helper lemmas about dict reads/writes and `renderPart` -/

lemma alookup_aset_ne {α : Type} {k k' : String} (h : k' ≠ k) (v : α) :
    ∀ l : List (String × α), alookup k' (aset k v l) = alookup k' l := by
  intro l
  induction l with
  | nil => simp [aset, alookup, Ne.symm h]
  | cons p rest ih =>
    by_cases hp : p.1 = k
    · simp [aset, hp, alookup, Ne.symm h]
    · simp [aset, hp, alookup, ih]

lemma alookup_aset_self {α : Type} (k : String) (v : α) :
    ∀ l : List (String × α), alookup k (aset k v l) = some v := by
  intro l
  induction l with
  | nil => simp [aset, alookup]
  | cons p rest ih =>
    by_cases hp : p.1 = k
    · simp [aset, hp, alookup]
    · simp [aset, hp, alookup, ih]

/-- Writing back the value already present leaves the dict unchanged. -/
lemma aset_eq_self {α : Type} {k : String} {v : α} :
    ∀ {l : List (String × α)}, alookup k l = some v → aset k v l = l := by
  intro l
  induction l with
  | nil => intro h; cases h
  | cons p rest ih =>
    obtain ⟨a, b⟩ := p
    intro h
    by_cases hp : a = k
    · subst hp
      simp only [alookup, if_pos] at h
      obtain rfl : b = v := Option.some.inj h
      simp [aset]
    · simp only [alookup, hp, ite_false] at h
      simp [aset, hp, ih h]

lemma alookup_mem {α : Type} {k : String} {v : α} :
    ∀ {l : List (String × α)}, alookup k l = some v → (k, v) ∈ l := by
  intro l
  induction l with
  | nil => intro h; cases h
  | cons p rest ih =>
    obtain ⟨a, b⟩ := p
    intro h
    by_cases hp : a = k
    · subst hp
      simp only [alookup, if_pos] at h
      obtain rfl : b = v := Option.some.inj h
      exact List.mem_cons.mpr (Or.inl rfl)
    · simp only [alookup, hp, ite_false] at h
      exact List.mem_cons.mpr (Or.inr (ih h))

/-- `forecast[date][part]` is absent: either the date is missing (the
`defaultdict` would insert an empty dict) or the inner dict lacks the
day part. In both cases the composer's chained subscript raises. -/
def missingPart (fc : Forecast) (date part : String) : Bool :=
  match alookup date fc with
  | none => true
  | some inner => (alookup part inner).isNone

lemma codes_to_str_ok_pruned {codes : List Int} {part s : String} {pr : List Int}
    (h : metoffice_weather_codes_to_str codes part = Except.ok (s, pr)) :
    pr = prune codes := by
  simp only [metoffice_weather_codes_to_str] at h
  cases hrl : renderLoop
      (if part = "night" then some day_skip_codes
       else if part = "day" then some night_skip_codes else none)
      (prune codes).length (prune codes) 0 "" with
  | error e =>
    simp only [hrl] at h
    exact Except.noConfusion h
  | ok w =>
    simp only [hrl] at h
    exact (Prod.ext_iff.mp (Except.ok.inj h)).2.symm

/-- A successful `renderPart` can only touch the written-back
(date, part) slot, so any other missing slot stays missing. -/
lemma renderPart_preserves_missing {fc fc' : Forecast} {date part date' part' dn s : String}
    (hne : part ≠ part')
    (hm : missingPart fc date part = true)
    (hr : renderPart fc date' part' dn = Except.ok (s, fc')) :
    missingPart fc' date part = true := by
  unfold renderPart at hr
  cases hd : alookup date' fc with
  | none =>
    simp only [hd] at hr
    exact Except.noConfusion hr
  | some inner =>
    simp only [hd] at hr
    cases hp : alookup part' inner with
    | none =>
      simp only [hp] at hr
      exact Except.noConfusion hr
    | some ps =>
      simp only [hp] at hr
      cases hs : metoffice_weather_codes_to_str ps.weather_code dn with
      | error e =>
        simp only [hs] at hr
        exact Except.noConfusion hr
      | ok pr =>
        obtain ⟨str0, pruned0⟩ := pr
        simp only [hs] at hr
        obtain rfl : aset date' (aset part'
            { ps with weather_code := pruned0 } inner) fc = fc' :=
          (Prod.ext_iff.mp (Except.ok.inj hr)).2
        unfold missingPart
        by_cases hdd : date = date'
        · subst hdd
          rw [alookup_aset_self]
          simp only [Option.isNone_iff_eq_none]
          rw [alookup_aset_ne hne]
          unfold missingPart at hm
          simp only [hd, Option.isNone_iff_eq_none] at hm
          exact hm
        · rw [alookup_aset_ne hdd]
          unfold missingPart at hm
          exact hm

/-- Accessing a missing (date, part) slot raises (`KeyError`). -/
lemma renderPart_missing_error {fc : Forecast} {date part : String} (dn : String)
    (hm : missingPart fc date part = true) :
    renderPart fc date part dn = Except.error "KeyError" := by
  unfold renderPart
  unfold missingPart at hm
  cases hd : alookup date fc with
  | none => simp only [hd]
  | some inner =>
    simp only [hd, Option.isNone_iff_eq_none] at hm
    simp only [hd, hm]

/-! ### Claims about the code-to-phrase renderer -/

/-- Claim C5: for every ordered code sequence containing code 3, the
deduplication pass removes codes 7 and 2 before producing the phrase
(the surviving list is the order-preserving filter without 7s and 2s);
in particular `render([3,7,2], "day")` produces only the rendering of
code 3, `"Sunny with a few clouds"`, leaving the list `[3]`. -/
theorem C5_prune_removes_redundant_codes :
    (∀ codes : List Int, 3 ∈ codes →
      prune codes = codes.filter (fun c => !(c == 7 || c == 2))) ∧
    metoffice_weather_codes_to_str [3, 7, 2] "day" =
      Except.ok ("Sunny with a few clouds", [3]) :=
  ⟨prune_eq_filter, rfl⟩

/-- Witness for C5 at the concrete input `[3, 7]`. -/
theorem C5_witness :
    (3 : Int) ∈ [3, 7] ∧
    prune [3, 7] = List.filter (fun c => !(c == 7 || c == 2)) [3, 7] :=
  ⟨by decide, C5_prune_removes_redundant_codes.1 [3, 7] (by decide)⟩

/-- Counterexample to claim C6: `render([9,12,15], "day")` does not
produce `"Light rain showers, with Light rain and Heavy rain"` — code 9
is skip-filtered for `"day"`. -/
theorem C6_counterexample :
    (metoffice_weather_codes_to_str [9, 12, 15] "day").toOption.map (fun p => p.1) ≠
      some "Light rain showers, with Light rain and Heavy rain" := by
  decide

/-- Claim C6 as amended: code 9 lies in `night_skip_codes` and is
therefore filtered out when rendering for `"day"`, so
`render([9,12,15], "day")` joins only the phrases of 12 and 15:
`"Light rain, with Heavy rain"` (and the codes list is not mutated). -/
theorem C6_amended_rendering_joins :
    metoffice_weather_codes_to_str [9, 12, 15] "day" =
      Except.ok ("Light rain, with Heavy rain", [9, 12, 15]) ∧
    (9 : Int) ∈ night_skip_codes :=
  ⟨rfl, by decide⟩

/-- Claim C10: for a `part` value other than `"day"` and `"night"` the
renderer's skip set is never assigned, so the function raises
`UnboundLocalError` whenever the codes list is non-empty after pruning,
and returns the empty string when the codes list is empty. -/
theorem C10_renderer_part_domain (codes : List Int) (part : String)
    (hd : part ≠ "day") (hn : part ≠ "night") :
    (prune codes ≠ [] →
      metoffice_weather_codes_to_str codes part = Except.error "UnboundLocalError") ∧
    (codes = [] → metoffice_weather_codes_to_str codes part = Except.ok ("", [])) := by
  constructor
  · intro hne
    simp only [metoffice_weather_codes_to_str, if_neg hn, if_neg hd]
    cases hpr : prune codes with
    | nil => exact absurd hpr hne
    | cons c rest => simp [hpr, renderLoop]
  · intro hc
    subst hc
    simp only [metoffice_weather_codes_to_str, if_neg hn, if_neg hd]
    rfl

/-- Witness for C10 at `part = "evening"`, `codes = [1]`. -/
theorem C10_witness :
    (("evening" : String) ≠ "day" ∧ ("evening" : String) ≠ "night") ∧
    (prune [1] ≠ [] →
      metoffice_weather_codes_to_str [1] "evening" = Except.error "UnboundLocalError") ∧
    (([1] : List Int) = [] →
      metoffice_weather_codes_to_str [1] "evening" = Except.ok ("", [])) :=
  ⟨⟨by decide, by decide⟩,
    C10_renderer_part_domain [1] "evening" (by decide) (by decide)⟩

/-! ### Claims about day-part grouping (C1) -/

/-- A single observation at local hour 6, used to separate the two
day-part bucketing schemes. -/
def c1Obs : Obs :=
  { time := "2025-06-01T06:00Z", maxScreenAirTemp := 10, minScreenAirTemp := 5
    significantWeatherCode := 1, uvIndex := 3, probOfRain := 10 }

/-- Counterexample to claim C1: at local hour 6 the Scheme A boundaries
put the observation in `"overnight"` ([0,7)), but the aggregator's
per-date output carries its weather code under `"morning"` — the
grouping in `get_day_periods_weather` uses `_determine_day_part`
([6,12) = morning), not Scheme A. -/
theorem C1_counterexample :
    scheme_A_day_part c1Obs.time = "overnight" ∧
    get_day_periods_weather [c1Obs] (dateOf c1Obs.time) "overnight" = none ∧
    (get_day_periods_weather [c1Obs] (dateOf c1Obs.time) "morning").map
      (fun s => s.weather_code) = some [1] := by
  refine ⟨rfl, rfl, rfl⟩

/-- Claim C1 as amended: the day-part grouping of
`get_day_periods_weather` uses the `_determine_day_part` boundaries
(the spec's Scheme B): morning = local hour in [6,12), afternoon in
[12,18), evening in [18,24), overnight otherwise. Every observation's
weather code appears in the per-date output under the day-part those
boundaries give for its hour. -/
theorem C1_amended_scheme_B_grouping (l : List Obs) (e : Obs) (he : e ∈ l) :
    ∃ s, get_day_periods_weather l (dateOf e.time)
        (let hour := determine_hour e.time
         if 6 ≤ hour ∧ hour < 12 then "morning"
         else if 12 ≤ hour ∧ hour < 18 then "afternoon"
         else if 18 ≤ hour ∧ hour < 24 then "evening"
         else "overnight") = some s ∧
      e.significantWeatherCode ∈ s.weather_code := by
  have hpart : (let hour := determine_hour e.time
      if 6 ≤ hour ∧ hour < 12 then "morning"
      else if 12 ≤ hour ∧ hour < 18 then "afternoon"
      else if 18 ≤ hour ∧ hour < 24 then "evening"
      else "overnight") = determine_day_part e.time := rfl
  rw [hpart]
  have hme : e ∈ period_entries l (dateOf e.time) (determine_day_part e.time) := by
    unfold period_entries
    rw [List.mem_filter]
    refine ⟨?_, by simp⟩
    unfold daily_entries
    rw [List.mem_filter]
    exact ⟨he, by simp⟩
  have hne : (period_entries l (dateOf e.time) (determine_day_part e.time)).isEmpty
      = false := by
    rw [List.isEmpty_eq_false]
    exact List.ne_nil_of_mem hme
  refine ⟨get_weather_for_day
      (period_entries l (dateOf e.time) (determine_day_part e.time)), ?_, ?_⟩
  · simp only [get_day_periods_weather, hne, Bool.false_eq_true, if_false]
  · have hcode : e.significantWeatherCode ∈
        (period_entries l (dateOf e.time) (determine_day_part e.time)).map
          (fun x => x.significantWeatherCode) :=
      List.mem_map_of_mem _ hme
    simp only [get_weather_for_day]
    exact (List.perm_insertionSort _ _).mem_iff.mpr (List.mem_dedup.mpr hcode)

/-- Witness for the amended C1 at the one-observation list `[c1Obs]`. -/
theorem C1_witness :
    c1Obs ∈ [c1Obs] ∧
    ∃ s, get_day_periods_weather [c1Obs] (dateOf c1Obs.time)
        (let hour := determine_hour c1Obs.time
         if 6 ≤ hour ∧ hour < 12 then "morning"
         else if 12 ≤ hour ∧ hour < 18 then "afternoon"
         else if 18 ≤ hour ∧ hour < 24 then "evening"
         else "overnight") = some s ∧
      c1Obs.significantWeatherCode ∈ s.weather_code :=
  ⟨List.mem_singleton.mpr rfl,
    C1_amended_scheme_B_grouping [c1Obs] c1Obs (List.mem_singleton.mpr rfl)⟩

/-! ### Claims about the per-date and per-period statistics (C2, C8) -/

lemma daily_entries_map_min (l : List Obs) (g : Obs → ℚ) (date : String) :
    daily_entries (l.map (fun e => { e with minScreenAirTemp := g e })) date
      = (daily_entries l date).map (fun e => { e with minScreenAirTemp := g e }) := by
  unfold daily_entries
  induction l with
  | nil => rfl
  | cons x xs ih =>
    simp only [List.map_cons, List.filter_cons]
    have hpred : (decide (dateOf ({ x with minScreenAirTemp := g x } : Obs).time = date))
        = decide (dateOf x.time = date) := rfl
    rw [hpred]
    by_cases hd : dateOf x.time = date
    · simp [hd, ih]
    · simp [hd, ih]

/-- `get_highs_lows` never reads the `minScreenAirTemp` field. -/
lemma get_highs_lows_ignores_min (l : List Obs) (g : Obs → ℚ) (date : String) :
    get_highs_lows (l.map (fun e => { e with minScreenAirTemp := g e })) date =
      get_highs_lows l date := by
  simp only [get_highs_lows]
  rw [daily_entries_map_min, List.map_map]
  have hcomp : ((fun e => e.maxScreenAirTemp) ∘
      (fun e => ({ e with minScreenAirTemp := g e } : Obs))) =
      fun e : Obs => e.maxScreenAirTemp := rfl
  rw [hcomp]
  have hemp : ((daily_entries l date).map
      (fun e => ({ e with minScreenAirTemp := g e } : Obs))).isEmpty =
      (daily_entries l date).isEmpty := by
    cases daily_entries l date <;> rfl
  rw [hemp]

/-- Claim C2: for every date with at least one observation, the daily
high/low pair comes from the `maxScreenAirTemp` field alone — `high` is
the rounded maximum and `low` the rounded minimum of that same field
over the date's observations, and replacing every `minScreenAirTemp`
by anything whatsoever does not change the result. -/
theorem C2_daily_high_low (l : List Obs) (date : String) (hl : DailyHighLow)
    (h : get_highs_lows l date = some hl) :
    ((∃ m, m ∈ (daily_entries l date).map (fun e => e.maxScreenAirTemp) ∧
        (∀ t ∈ (daily_entries l date).map (fun e => e.maxScreenAirTemp), t ≤ m) ∧
        hl.high = pyRound m) ∧
      (∃ m, m ∈ (daily_entries l date).map (fun e => e.maxScreenAirTemp) ∧
        (∀ t ∈ (daily_entries l date).map (fun e => e.maxScreenAirTemp), m ≤ t) ∧
        hl.low = pyRound m)) ∧
    ∀ g : Obs → ℚ,
      get_highs_lows (l.map (fun e => { e with minScreenAirTemp := g e })) date =
        some hl := by
  have hunf := h
  simp only [get_highs_lows] at hunf
  by_cases hemp : (daily_entries l date).isEmpty
  · rw [if_pos hemp] at hunf
    exact Option.noConfusion hunf
  · rw [if_neg hemp] at hunf
    have hl_eq := (Option.some.inj hunf).symm
    have hnil : (daily_entries l date).map (fun e => e.maxScreenAirTemp) ≠ [] := by
      intro hmap
      exact hemp (by rw [List.isEmpty_iff, ← List.map_eq_nil_iff (f := fun e : Obs => e.maxScreenAirTemp)]; exact hmap)
    refine ⟨⟨⟨pyMax _, pyMax_mem hnil, fun t ht => le_pyMax ht, by rw [hl_eq]⟩,
      ⟨pyMin _, pyMin_mem hnil, fun t ht => pyMin_le ht, by rw [hl_eq]⟩⟩, ?_⟩
    intro g
    rw [get_highs_lows_ignores_min, h]

/-- Concrete data for the C2 witness. -/
def c2Obs1 : Obs :=
  { time := "2025-06-01T09:00Z", maxScreenAirTemp := 10, minScreenAirTemp := 99
    significantWeatherCode := 1, uvIndex := 2, probOfRain := 5 }

/-- Concrete data for the C2 witness. -/
def c2Obs2 : Obs :=
  { time := "2025-06-01T12:00Z", maxScreenAirTemp := 12, minScreenAirTemp := 0
    significantWeatherCode := 7, uvIndex := 4, probOfRain := 20 }

/-- Witness for C2 on a two-observation day. -/
theorem C2_witness :
    get_highs_lows [c2Obs1, c2Obs2] "2025-06-01" = some { high := 12, low := 10 } ∧
    (((∃ m, m ∈ (daily_entries [c2Obs1, c2Obs2] "2025-06-01").map
          (fun e => e.maxScreenAirTemp) ∧
        (∀ t ∈ (daily_entries [c2Obs1, c2Obs2] "2025-06-01").map
          (fun e => e.maxScreenAirTemp), t ≤ m) ∧
        ({ high := 12, low := 10 } : DailyHighLow).high = pyRound m) ∧
      (∃ m, m ∈ (daily_entries [c2Obs1, c2Obs2] "2025-06-01").map
          (fun e => e.maxScreenAirTemp) ∧
        (∀ t ∈ (daily_entries [c2Obs1, c2Obs2] "2025-06-01").map
          (fun e => e.maxScreenAirTemp), m ≤ t) ∧
        ({ high := 12, low := 10 } : DailyHighLow).low = pyRound m)) ∧
    ∀ g : Obs → ℚ,
      get_highs_lows ([c2Obs1, c2Obs2].map (fun e => { e with minScreenAirTemp := g e }))
        "2025-06-01" = some { high := 12, low := 10 }) :=
  ⟨by decide,
    C2_daily_high_low [c2Obs1, c2Obs2] "2025-06-01" { high := 12, low := 10 } (by decide)⟩

/-- Claim C8: for every (date, day-part) bucket with at least one
observation, the summary has `max_temp` = rounded maximum of the
bucket's `maxScreenAirTemp`, `min_temp` = rounded minimum of the
bucket's `minScreenAirTemp`, `weather_code` = the ascending sorted list
of the distinct codes observed, `uv_index` = maximum `uvIndex`, and
`prob_of_rain` = maximum `probOfRain`. -/
theorem C8_period_summary (l : List Obs) (date part : String) (s : PeriodSummary)
    (h : get_day_periods_weather l date part = some s) :
    (∃ m, m ∈ (period_entries l date part).map (fun e => e.maxScreenAirTemp) ∧
      (∀ t ∈ (period_entries l date part).map (fun e => e.maxScreenAirTemp), t ≤ m) ∧
      s.max_temp = pyRound m) ∧
    (∃ m, m ∈ (period_entries l date part).map (fun e => e.minScreenAirTemp) ∧
      (∀ t ∈ (period_entries l date part).map (fun e => e.minScreenAirTemp), m ≤ t) ∧
      s.min_temp = pyRound m) ∧
    (s.weather_code.Sorted (· ≤ ·) ∧ s.weather_code.Nodup ∧
      ∀ c : Int, c ∈ s.weather_code ↔
        c ∈ (period_entries l date part).map (fun e => e.significantWeatherCode)) ∧
    (s.uv_index ∈ (period_entries l date part).map (fun e => e.uvIndex) ∧
      ∀ u ∈ (period_entries l date part).map (fun e => e.uvIndex), u ≤ s.uv_index) ∧
    (s.prob_of_rain ∈ (period_entries l date part).map (fun e => e.probOfRain) ∧
      ∀ u ∈ (period_entries l date part).map (fun e => e.probOfRain),
        u ≤ s.prob_of_rain) := by
  have hunf := h
  simp only [get_day_periods_weather] at hunf
  by_cases hemp : (period_entries l date part).isEmpty
  · rw [if_pos hemp] at hunf
    exact Option.noConfusion hunf
  · rw [if_neg hemp] at hunf
    have hs := (Option.some.inj hunf).symm
    have hnil : period_entries l date part ≠ [] := by
      intro hn
      exact hemp (by rw [hn]; rfl)
    have hmap : ∀ f : Obs → ℚ, (period_entries l date part).map f ≠ [] := by
      intro f hn
      exact hnil (List.map_eq_nil_iff.mp hn)
    have hmapi : ∀ f : Obs → Int, (period_entries l date part).map f ≠ [] := by
      intro f hn
      exact hnil (List.map_eq_nil_iff.mp hn)
    refine ⟨⟨pyMax _, pyMax_mem (hmap _), fun t ht => le_pyMax ht, by rw [hs]; rfl⟩,
      ⟨pyMin _, pyMin_mem (hmap _), fun t ht => pyMin_le ht, by rw [hs]; rfl⟩,
      ⟨?_, ?_, ?_⟩, ⟨?_, fun u hu => ?_⟩, ⟨?_, fun u hu => ?_⟩⟩
    · rw [hs]
      exact List.sorted_insertionSort _ _
    · rw [hs]
      exact ((List.perm_insertionSort _ _).nodup_iff).mpr (List.nodup_dedup _)
    · intro c
      rw [hs]
      exact Iff.trans ((List.perm_insertionSort _ _).mem_iff) (List.mem_dedup)
    · rw [hs]
      exact pyMax_mem (hmapi _)
    · rw [hs]
      exact le_pyMax hu
    · rw [hs]
      exact pyMax_mem (hmapi _)
    · rw [hs]
      exact le_pyMax hu

/-- Concrete data for the C8 witness. -/
def c8Obs1 : Obs :=
  { time := "2025-06-01T13:00Z", maxScreenAirTemp := 18, minScreenAirTemp := 11
    significantWeatherCode := 7, uvIndex := 5, probOfRain := 30 }

/-- Concrete data for the C8 witness. -/
def c8Obs2 : Obs :=
  { time := "2025-06-01T16:00Z", maxScreenAirTemp := 17, minScreenAirTemp := 12
    significantWeatherCode := 1, uvIndex := 3, probOfRain := 60 }

/-- Witness for C8 on a two-observation afternoon bucket. -/
theorem C8_witness :
    get_day_periods_weather [c8Obs1, c8Obs2] "2025-06-01" "afternoon" =
      some { max_temp := 18, min_temp := 11, weather_code := [1, 7]
             uv_index := 5, prob_of_rain := 60 } ∧
    ((∃ m, m ∈ (period_entries [c8Obs1, c8Obs2] "2025-06-01" "afternoon").map
        (fun e => e.maxScreenAirTemp) ∧
      (∀ t ∈ (period_entries [c8Obs1, c8Obs2] "2025-06-01" "afternoon").map
        (fun e => e.maxScreenAirTemp), t ≤ m) ∧
      ({ max_temp := 18, min_temp := 11, weather_code := [1, 7]
         uv_index := 5, prob_of_rain := 60 } : PeriodSummary).max_temp = pyRound m) ∧
    (∃ m, m ∈ (period_entries [c8Obs1, c8Obs2] "2025-06-01" "afternoon").map
        (fun e => e.minScreenAirTemp) ∧
      (∀ t ∈ (period_entries [c8Obs1, c8Obs2] "2025-06-01" "afternoon").map
        (fun e => e.minScreenAirTemp), m ≤ t) ∧
      ({ max_temp := 18, min_temp := 11, weather_code := [1, 7]
         uv_index := 5, prob_of_rain := 60 } : PeriodSummary).min_temp = pyRound m) ∧
    (([1, 7] : List Int).Sorted (· ≤ ·) ∧ ([1, 7] : List Int).Nodup ∧
      ∀ c : Int, c ∈ ([1, 7] : List Int) ↔
        c ∈ (period_entries [c8Obs1, c8Obs2] "2025-06-01" "afternoon").map
          (fun e => e.significantWeatherCode)) ∧
    ((5 : Int) ∈ (period_entries [c8Obs1, c8Obs2] "2025-06-01" "afternoon").map
        (fun e => e.uvIndex) ∧
      ∀ u ∈ (period_entries [c8Obs1, c8Obs2] "2025-06-01" "afternoon").map
        (fun e => e.uvIndex), u ≤ (5 : Int)) ∧
    ((60 : Int) ∈ (period_entries [c8Obs1, c8Obs2] "2025-06-01" "afternoon").map
        (fun e => e.probOfRain) ∧
      ∀ u ∈ (period_entries [c8Obs1, c8Obs2] "2025-06-01" "afternoon").map
        (fun e => e.probOfRain), u ≤ (60 : Int))) :=
  ⟨by decide,
    C8_period_summary [c8Obs1, c8Obs2] "2025-06-01" "afternoon"
      { max_temp := 18, min_temp := 11, weather_code := [1, 7]
        uv_index := 5, prob_of_rain := 60 } (by decide)⟩

/-! ### Claim C9: order-independence of the aggregation -/

lemma get_weather_for_day_perm {es es' : List Obs} (hp : es.Perm es') :
    get_weather_for_day es = get_weather_for_day es' := by
  have hmax : pyMax (es.map (fun e => e.maxScreenAirTemp)) =
      pyMax (es'.map (fun e => e.maxScreenAirTemp)) := pyMax_perm (hp.map _)
  have hmin : pyMin (es.map (fun e => e.minScreenAirTemp)) =
      pyMin (es'.map (fun e => e.minScreenAirTemp)) := pyMin_perm (hp.map _)
  have huv : pyMax (es.map (fun e => e.uvIndex)) =
      pyMax (es'.map (fun e => e.uvIndex)) := pyMax_perm (hp.map _)
  have hrain : pyMax (es.map (fun e => e.probOfRain)) =
      pyMax (es'.map (fun e => e.probOfRain)) := pyMax_perm (hp.map _)
  have hcodes : ((es.map (fun e => e.significantWeatherCode)).dedup).insertionSort
        (fun a b => a ≤ b) =
      ((es'.map (fun e => e.significantWeatherCode)).dedup).insertionSort
        (fun a b => a ≤ b) := by
    refine List.eq_of_perm_of_sorted ?_
      (List.sorted_insertionSort _ _) (List.sorted_insertionSort _ _)
    exact (List.perm_insertionSort _ _).trans
      (((hp.map _).dedup).trans (List.perm_insertionSort _ _).symm)
  simp only [get_weather_for_day, hmax, hmin, huv, hrain, hcodes]

lemma isEmpty_eq_of_perm {es es' : List Obs} (hp : es.Perm es') :
    es.isEmpty = es'.isEmpty := by
  cases es with
  | nil => rw [List.Perm.eq_nil hp.symm]
  | cons x xs =>
    cases hes' : es' with
    | nil =>
      rw [hes'] at hp
      exact absurd (List.Perm.eq_nil hp) (by simp)
    | cons y ys => rfl

/-- Claim C9: aggregation is order-independent (and, being a pure
function, idempotent): permuting the observation list changes neither
any per-date/per-day-part summary nor any per-date high/low pair. -/
theorem C9_aggregation_order_independent (l l' : List Obs) (hp : l.Perm l') :
    (∀ date part, get_day_periods_weather l date part =
      get_day_periods_weather l' date part) ∧
    (∀ date, get_highs_lows l date = get_highs_lows l' date) := by
  constructor
  · intro date part
    have hpp : (period_entries l date part).Perm (period_entries l' date part) :=
      (hp.filter _).filter _
    simp only [get_day_periods_weather, isEmpty_eq_of_perm hpp,
      get_weather_for_day_perm hpp]
  · intro date
    have hpd : (daily_entries l date).Perm (daily_entries l' date) := hp.filter _
    have hmax : pyMax ((daily_entries l date).map (fun e => e.maxScreenAirTemp)) =
        pyMax ((daily_entries l' date).map (fun e => e.maxScreenAirTemp)) :=
      pyMax_perm (hpd.map _)
    have hmin : pyMin ((daily_entries l date).map (fun e => e.maxScreenAirTemp)) =
        pyMin ((daily_entries l' date).map (fun e => e.maxScreenAirTemp)) :=
      pyMin_perm (hpd.map _)
    simp only [get_highs_lows, isEmpty_eq_of_perm hpd, hmax, hmin]

/-- Witness for C9: swapping a two-observation list leaves the morning
summary and the daily highs/lows unchanged. -/
theorem C9_witness :
    ([c2Obs1, c2Obs2] : List Obs).Perm [c2Obs2, c2Obs1] ∧
    get_day_periods_weather [c2Obs1, c2Obs2] "2025-06-01" "morning" =
      get_day_periods_weather [c2Obs2, c2Obs1] "2025-06-01" "morning" ∧
    get_highs_lows [c2Obs1, c2Obs2] "2025-06-01" =
      get_highs_lows [c2Obs2, c2Obs1] "2025-06-01" :=
  ⟨List.Perm.swap c2Obs2 c2Obs1 [],
    (C9_aggregation_order_independent [c2Obs1, c2Obs2] [c2Obs2, c2Obs1]
      (List.Perm.swap c2Obs2 c2Obs1 [])).1 "2025-06-01" "morning",
    (C9_aggregation_order_independent [c2Obs1, c2Obs2] [c2Obs2, c2Obs1]
      (List.Perm.swap c2Obs2 c2Obs1 [])).2 "2025-06-01"⟩

/-! ### Claim C3: missing periods make composition fail loudly -/

/-- Claim C3: when the index lacks tomorrow's `"overnight"` entry and
composition runs in the evening window (hour in [17,24), e.g. hour 20),
`compose` raises a lookup error (`KeyError`, the spec's
MissingDataError) instead of substituting a default or returning a
malformed bulletin. -/
theorem C3_missing_period_raises (idx : ForecastIndex) (today tomorrow : String)
    (hour : Nat) (h17 : 17 ≤ hour) (h24 : hour < 24)
    (hm : missingPart idx.forecast tomorrow "overnight" = true) :
    ∃ e, compose idx today tomorrow hour = Except.error e := by
  have h1 : ¬(5 ≤ hour ∧ hour < 11) := by omega
  have h2 : ¬(11 ≤ hour ∧ hour < 17) := by omega
  unfold compose
  rw [if_neg h1, if_neg h2, if_pos ⟨h17, h24⟩]
  unfold eveningBranch
  cases he : renderPart idx.forecast today "evening" "day" with
  | error e => exact ⟨e, by simp only [he]⟩
  | ok p =>
    obtain ⟨ew, fc1⟩ := p
    have hm1 : missingPart fc1 tomorrow "overnight" = true :=
      renderPart_preserves_missing (by decide) hm he
    refine ⟨"KeyError", ?_⟩
    simp only [he, renderPart_missing_error "night" hm1]

/-- Concrete index for the C3 witness: today has an evening period, but
tomorrow is absent entirely. -/
def c3Idx : ForecastIndex :=
  { forecast := [("2025-06-01",
      [("evening", { max_temp := 15, min_temp := 10, weather_code := [1]
                     uv_index := 1, prob_of_rain := 0 })])]
    temps := [("2025-06-01", { high := 15, low := 10 })] }

/-- Witness for C3 at hour 20. -/
theorem C3_witness :
    ((17 : Nat) ≤ 20 ∧ (20 : Nat) < 24 ∧
      missingPart c3Idx.forecast "2025-06-02" "overnight" = true) ∧
    ∃ e, compose c3Idx "2025-06-01" "2025-06-02" 20 = Except.error e :=
  ⟨⟨by decide, by decide, by decide⟩,
    C3_missing_period_raises c3Idx "2025-06-01" "2025-06-02" 20
      (by decide) (by decide) (by decide)⟩

/-! ### Claim C4: does composition mutate the forecast index? -/

/-- If pruning fixes every stored weather-code list, a successful
`renderPart` writes back exactly what it read and leaves the forecast
dict unchanged. -/
lemma renderPart_ok_unchanged {fc : Forecast} {date part dn s : String} {fc' : Forecast}
    (hP : ∀ p ∈ fc, ∀ q ∈ p.2, prune q.2.weather_code = q.2.weather_code)
    (h : renderPart fc date part dn = Except.ok (s, fc')) : fc' = fc := by
  unfold renderPart at h
  cases hd : alookup date fc with
  | none =>
    simp only [hd] at h
    exact Except.noConfusion h
  | some inner =>
    simp only [hd] at h
    cases hp : alookup part inner with
    | none =>
      simp only [hp] at h
      exact Except.noConfusion h
    | some ps =>
      simp only [hp] at h
      cases hr : metoffice_weather_codes_to_str ps.weather_code dn with
      | error e =>
        simp only [hr] at h
        exact Except.noConfusion h
      | ok pr =>
        obtain ⟨st, pruned⟩ := pr
        simp only [hr] at h
        obtain ⟨-, hfc⟩ := Prod.ext_iff.mp (Except.ok.inj h)
        have hpruned : pruned = ps.weather_code := by
          rw [codes_to_str_ok_pruned hr]
          exact hP _ (alookup_mem hd) _ (alookup_mem hp)
        rw [hpruned] at hfc
        have heta : ({ ps with weather_code := ps.weather_code } : PeriodSummary)
            = ps := rfl
        rw [heta, aset_eq_self hp, aset_eq_self hd] at hfc
        exact hfc.symm

/-- Claim C4 as amended: composition can mutate the index through the
renderer's in-place pruning; but whenever pruning fixes every stored
weather-code list (e.g. no list contains 3 alongside 7 or 2), a
successful composition leaves the index unchanged. -/
theorem C4_amended_no_mutation_when_prune_fixes (idx : ForecastIndex)
    (today tomorrow : String) (hour : Nat) (b : String) (idx' : ForecastIndex)
    (hP : ∀ p ∈ idx.forecast, ∀ q ∈ p.2, prune q.2.weather_code = q.2.weather_code)
    (h : compose idx today tomorrow hour = Except.ok (b, idx')) : idx' = idx := by
  unfold compose at h
  by_cases h1 : 5 ≤ hour ∧ hour < 11
  · rw [if_pos h1] at h
    unfold morningBranch at h
    cases hm : renderPart idx.forecast today "morning" "day" with
    | error e =>
      simp only [hm] at h
      exact Except.noConfusion h
    | ok p =>
      obtain ⟨mw, fc1⟩ := p
      have hfc1 : fc1 = idx.forecast := renderPart_ok_unchanged hP hm
      simp only [hm] at h
      cases ha : renderPart fc1 today "afternoon" "day" with
      | error e =>
        simp only [ha] at h
        exact Except.noConfusion h
      | ok p2 =>
        obtain ⟨aw, fc2⟩ := p2
        have hfc2 : fc2 = fc1 :=
          renderPart_ok_unchanged (by rw [hfc1]; exact hP) ha
        simp only [ha] at h
        cases ht : alookup today idx.temps with
        | none =>
          simp only [ht] at h
          exact Except.noConfusion h
        | some peak =>
          simp only [ht] at h
          have hidx : ({ forecast := fc2, temps := idx.temps } : ForecastIndex)
              = idx' := congrArg Prod.snd (Except.ok.inj h)
          rw [← hidx, hfc2, hfc1]
  · rw [if_neg h1] at h
    by_cases h2 : 11 ≤ hour ∧ hour < 17
    · rw [if_pos h2] at h
      unfold afternoonBranch at h
      cases hm : renderPart idx.forecast today "afternoon" "day" with
      | error e =>
        simp only [hm] at h
        exact Except.noConfusion h
      | ok p =>
        obtain ⟨aw, fc1⟩ := p
        have hfc1 : fc1 = idx.forecast := renderPart_ok_unchanged hP hm
        simp only [hm] at h
        cases ha : renderPart fc1 today "evening" "day" with
        | error e =>
          simp only [ha] at h
          exact Except.noConfusion h
        | ok p2 =>
          obtain ⟨ew, fc2⟩ := p2
          have hfc2 : fc2 = fc1 :=
            renderPart_ok_unchanged (by rw [hfc1]; exact hP) ha
          simp only [ha] at h
          cases ht : alookup today idx.temps with
          | none =>
            simp only [ht] at h
            exact Except.noConfusion h
          | some peak =>
            simp only [ht] at h
            have hidx : ({ forecast := fc2, temps := idx.temps } : ForecastIndex)
                = idx' := congrArg Prod.snd (Except.ok.inj h)
            rw [← hidx, hfc2, hfc1]
    · rw [if_neg h2] at h
      by_cases h3 : 17 ≤ hour ∧ hour < 24
      · rw [if_pos h3] at h
        unfold eveningBranch at h
        cases hm : renderPart idx.forecast today "evening" "day" with
        | error e =>
          simp only [hm] at h
          exact Except.noConfusion h
        | ok p =>
          obtain ⟨ew, fc1⟩ := p
          have hfc1 : fc1 = idx.forecast := renderPart_ok_unchanged hP hm
          simp only [hm] at h
          cases ha : renderPart fc1 tomorrow "overnight" "night" with
          | error e =>
            simp only [ha] at h
            exact Except.noConfusion h
          | ok p2 =>
            obtain ⟨ow, fc2⟩ := p2
            have hfc2 : fc2 = fc1 :=
              renderPart_ok_unchanged (by rw [hfc1]; exact hP) ha
            simp only [ha] at h
            cases hb : renderPart fc2 tomorrow "morning" "day" with
            | error e =>
              simp only [hb] at h
              exact Except.noConfusion h
            | ok p3 =>
              obtain ⟨tw, fc3⟩ := p3
              have hfc3 : fc3 = fc2 :=
                renderPart_ok_unchanged (by rw [hfc2, hfc1]; exact hP) hb
              simp only [hb] at h
              cases ht : alookup tomorrow idx.temps with
              | none =>
                simp only [ht] at h
                exact Except.noConfusion h
              | some t =>
                simp only [ht] at h
                have hidx : ({ forecast := fc3, temps := idx.temps } : ForecastIndex)
                    = idx' := congrArg Prod.snd (Except.ok.inj h)
                rw [← hidx, hfc3, hfc2, hfc1]
      · rw [if_neg h3] at h
        unfold overnightBranch at h
        cases hm : renderPart idx.forecast tomorrow "overnight" "night" with
        | error e =>
          simp only [hm] at h
          exact Except.noConfusion h
        | ok p =>
          obtain ⟨ow, fc1⟩ := p
          have hfc1 : fc1 = idx.forecast := renderPart_ok_unchanged hP hm
          simp only [hm] at h
          cases ha : renderPart fc1 tomorrow "morning" "day" with
          | error e =>
            simp only [ha] at h
            exact Except.noConfusion h
          | ok p2 =>
            obtain ⟨tmw, fc2⟩ := p2
            have hfc2 : fc2 = fc1 :=
              renderPart_ok_unchanged (by rw [hfc1]; exact hP) ha
            simp only [ha] at h
            cases hb : renderPart fc2 tomorrow "afternoon" "day" with
            | error e =>
              simp only [hb] at h
              exact Except.noConfusion h
            | ok p3 =>
              obtain ⟨taw, fc3⟩ := p3
              have hfc3 : fc3 = fc2 :=
                renderPart_ok_unchanged (by rw [hfc2, hfc1]; exact hP) hb
              simp only [hb] at h
              cases ht : alookup tomorrow idx.temps with
              | none =>
                simp only [ht] at h
                exact Except.noConfusion h
              | some t =>
                simp only [ht] at h
                have hidx : ({ forecast := fc3, temps := idx.temps } : ForecastIndex)
                    = idx' := congrArg Prod.snd (Except.ok.inj h)
                rw [← hidx, hfc3, hfc2, hfc1]

/-- Index whose morning list contains 3 alongside 7: rendering prunes
the stored list in place. -/
def c4Idx : ForecastIndex :=
  { forecast := [("2025-06-01",
      [("morning", { max_temp := 10, min_temp := 5, weather_code := [3, 7]
                     uv_index := 1, prob_of_rain := 0 }),
       ("afternoon", { max_temp := 12, min_temp := 6, weather_code := [1]
                       uv_index := 2, prob_of_rain := 0 })])]
    temps := [("2025-06-01", { high := 15, low := 8 })] }

/-- Counterexample to claim C4: composing the morning bulletin over
`c4Idx` succeeds and returns an index whose morning `weather_code` list
has been pruned from `[3, 7]` to `[3]` — the index is mutated. -/
theorem C4_counterexample :
    ∃ out, compose c4Idx "2025-06-01" "2025-06-02" 5 = Except.ok out ∧
      out.2 ≠ c4Idx := by
  refine ⟨_, rfl, ?_⟩
  decide

/-- Index with no list containing 3 alongside 7 or 2, for the C4
witness. -/
def c4wIdx : ForecastIndex :=
  { forecast := [("2025-06-01",
      [("morning", { max_temp := 10, min_temp := 5, weather_code := [1]
                     uv_index := 1, prob_of_rain := 0 }),
       ("afternoon", { max_temp := 12, min_temp := 6, weather_code := [7]
                       uv_index := 2, prob_of_rain := 0 })])]
    temps := [("2025-06-01", { high := 15, low := 8 })] }

/-- Witness for the amended C4: over `c4wIdx` the morning composition
succeeds and returns the index unchanged. -/
theorem C4_witness :
    (∀ p ∈ c4wIdx.forecast, ∀ q ∈ p.2, prune q.2.weather_code = q.2.weather_code) ∧
    ∃ b, compose c4wIdx "2025-06-01" "2025-06-02" 5 = Except.ok (b, c4wIdx) := by
  constructor
  · decide
  · obtain ⟨b, idx', hb⟩ : ∃ b idx',
        compose c4wIdx "2025-06-01" "2025-06-02" 5 = Except.ok (b, idx') :=
      ⟨_, _, rfl⟩
    have hun := C4_amended_no_mutation_when_prune_fixes c4wIdx
      "2025-06-01" "2025-06-02" 5 b idx' (by decide) hb
    exact ⟨b, hun ▸ hb⟩

/-! ### Claim C7: the morning template's collapse rule -/

/-- Claim C7: in the morning window (hour in [5,11)), when the rendered
morning phrase equals the rendered afternoon phrase as strings the
bulletin uses the "staying much the same" clause instead of repeating
the phrase, and when they differ it contains both rendered phrases.
The comparison is plain string equality on the rendered phrases (`mw`
and `aw` below), not on the underlying code sets. -/
theorem C7_morning_collapse (idx : ForecastIndex) (today tomorrow : String)
    (hour : Nat) (h5 : 5 ≤ hour) (h11 : hour < 11)
    (mw aw : String) (fc1 fc2 : Forecast) (peak : DailyHighLow)
    (hm : renderPart idx.forecast today "morning" "day" = Except.ok (mw, fc1))
    (ha : renderPart fc1 today "afternoon" "day" = Except.ok (aw, fc2))
    (ht : alookup today idx.temps = some peak) :
    (mw = aw → compose idx today tomorrow hour = Except.ok
      (mw ++ " this morning, " ++
        "staying much the same throughout the afternoon in North East Somerset, " ++
        "with temperatures reaching " ++ dictRepr peak ++ " degrees.",
      { idx with forecast := fc2 })) ∧
    (mw ≠ aw → compose idx today tomorrow hour = Except.ok
      (mw ++ " this morning, " ++
        (aw ++ " across North East Somerset this afternoon ") ++
        "with temperatures reaching " ++ dictRepr peak ++ " degrees.",
      { idx with forecast := fc2 })) := by
  have hc : 5 ≤ hour ∧ hour < 11 := ⟨h5, h11⟩
  constructor
  · intro hmw
    unfold compose morningBranch
    rw [if_pos hc]
    simp only [hm, ha, ht]
    rw [if_pos hmw]
  · intro hmw
    unfold compose morningBranch
    rw [if_pos hc]
    simp only [hm, ha, ht]
    rw [if_neg hmw]

/-- Forecast dict for the C7 witness: the morning codes `[9, 1]` and
the afternoon codes `[1]` differ as sets but render to the same phrase
for `"day"` (9 is skip-filtered). -/
def c7fc : Forecast :=
  [("2025-06-01",
    [("morning", { max_temp := 10, min_temp := 5, weather_code := [9, 1]
                   uv_index := 1, prob_of_rain := 0 }),
     ("afternoon", { max_temp := 12, min_temp := 6, weather_code := [1]
                     uv_index := 2, prob_of_rain := 0 })])]

/-- Index for the C7 witness. -/
def c7Idx : ForecastIndex :=
  { forecast := c7fc, temps := [("2025-06-01", { high := 15, low := 8 })] }

/-- Witness for C7 at hour 9: equal rendered phrases (from different
code sets) collapse to the "staying much the same" clause. -/
theorem C7_witness :
    compose c7Idx "2025-06-01" "2025-06-02" 9 = Except.ok
      ("Clear and sunny" ++ " this morning, " ++
        "staying much the same throughout the afternoon in North East Somerset, " ++
        "with temperatures reaching " ++ dictRepr { high := 15, low := 8 } ++
        " degrees.",
      { c7Idx with forecast := c7fc }) :=
  (C7_morning_collapse c7Idx "2025-06-01" "2025-06-02" 9 (by decide) (by decide)
    "Clear and sunny" "Clear and sunny" c7fc c7fc { high := 15, low := 8 }
    rfl rfl rfl).1 rfl

end Weather
